import Mathlib

/-!
Shallow embedding of the `ui_alias_editor` crate (files
`src/ui_alias_editor/src/visual_editor.rs` and
`src/ui_alias_editor/src/type_palette.rs`) together with theorems settling
the claims about it.

The editor's substantive data model (`TypeBlock`, `BlockId`, `BlockCanvas`,
`TypeAstNode`, `AliasAsset`) lives in external crates that are not part of
this excerpt; where a claim needs their behaviour, the missing pieces are
modelled from the spec (marked `Modelled from the spec:`) or passed in as
explicit oracle parameters (filesystem reads/writes, serde
serialization/parsing, fresh block-id generation), so the control flow of
the editor itself is translated verbatim from the Rust source.
Machine-word sizes never matter here: the only numeric data are slot
indices and parameter counts, which Rust holds as `usize` and which the
editor never does arithmetic on, so they are embedded as `Nat`.
-/

/-- The AST of a type expression, from `ui_types_common::TypeAstNode`
(external crate). The variants and their fields are exactly those matched
by `VisualAliasEditor::ast_to_rust_string` (visual_editor.rs:288-318);
the `Constructor` variant's extra fields (elided by `..` in the Rust
match) play no role in any claim and are omitted. -/
inductive TypeAstNode where
  | Primitive (name : String)
  | Path (path : String)
  | AliasRef (aliasName : String)
  | Constructor (name : String) (params : List TypeAstNode)
  | Tuple (elements : List TypeAstNode)
  | FnPointer (params : List TypeAstNode) (returnType : TypeAstNode)
deriving Repr

mutual
/-- `VisualAliasEditor::ast_to_rust_string` (visual_editor.rs:288-318):
direct recursive print of a `TypeAstNode` into a Rust type-expression
string. Rust's `Vec<String>::join(", ")` is `String.intercalate ", "`. -/
def astToRustString : TypeAstNode → String
  | .Primitive name => name
  | .Path path => path
  | .AliasRef aliasName => aliasName
  | .Constructor name params =>
      name ++ "<" ++ String.intercalate ", " (astStrings params) ++ ">"
  | .Tuple elements =>
      "(" ++ String.intercalate ", " (astStrings elements) ++ ")"
  | .FnPointer params returnType =>
      "fn(" ++ String.intercalate ", " (astStrings params) ++ ") -> " ++
        astToRustString returnType
/-- The `params.iter().map(|p| self.ast_to_rust_string(p)).collect::<Vec<_>>()`
pattern of visual_editor.rs:294-297, as a mutually recursive list map. -/
def astStrings : List TypeAstNode → List String
  | [] => []
  | a :: rest => astToRustString a :: astStrings rest
end

theorem astStrings_eq_map (l : List TypeAstNode) :
    astStrings l = l.map astToRustString := by
  induction l with
  | nil => rfl
  | cons a rest ih => simp [astStrings, ih]

/-- `BlockId` (external `crate::BlockId`, a newtype over `Arc<str>`; its
payload is accessed as `block_id.0` and tested with `.is_empty()` in
visual_editor.rs:338). -/
structure BlockId where
  raw : String
deriving Repr, DecidableEq

/-- Modelled from the spec: `crate::TypeBlock`, the externally defined
"tree of typed blocks with open slots" (spec §1). The excerpt constructs
blocks only via `TypeBlock::primitive(name)` and
`TypeBlock::constructor(name, params_count)` (type_palette.rs:126-133),
so a block is a primitive leaf or a constructor with a list of optional
(possibly still open) child slots; each block carries the id used by
`BlockCanvas::fill_slot` to address it. -/
inductive TypeBlock where
  | primitiveBlock (id : BlockId) (name : String)
  | constructorBlock (id : BlockId) (name : String) (slots : List (Option TypeBlock))
deriving Repr

mutual
/-- Modelled from the spec: `TypeBlock::to_ast` — the block tree is
"assembled into an abstract syntax tree" (spec §1); it yields `None`
exactly when some slot is still open (visual_editor.rs:176 reports
"Type has empty slots" when `to_ast` is `None`). -/
def TypeBlock.toAst : TypeBlock → Option TypeAstNode
  | .primitiveBlock _ name => some (.Primitive name)
  | .constructorBlock _ name slots =>
      match slotsToAsts slots with
      | some asts => some (.Constructor name asts)
      | none => none
/-- Modelled from the spec: converts a slot list to ASTs, failing on any
open slot. -/
def slotsToAsts : List (Option TypeBlock) → Option (List TypeAstNode)
  | [] => some []
  | none :: _ => none
  | some b :: rest =>
      match TypeBlock.toAst b, slotsToAsts rest with
      | some a, some asts => some (a :: asts)
      | _, _ => none
end

mutual
/-- Modelled from the spec: filling one open slot of the addressed block
inside a block tree; returns the rewritten tree on success and `none`
when the addressed slot does not exist or is already filled
("slot-filling semantics" are external per spec §3). -/
def TypeBlock.fillSlot : TypeBlock → BlockId → Nat → TypeBlock → Option TypeBlock
  | .primitiveBlock _ _, _, _, _ => none
  | .constructorBlock id name slots, target, idx, blk =>
      if id = target then
        match slots.get? idx with
        | some none => some (.constructorBlock id name (slots.set idx (some blk)))
        | _ => none
      else
        match fillSlotInSlots slots target idx blk with
        | some slots2 => some (.constructorBlock id name slots2)
        | none => none
/-- Modelled from the spec: tries `TypeBlock.fillSlot` on each filled
child slot in order, keeping the first success. -/
def fillSlotInSlots :
    List (Option TypeBlock) → BlockId → Nat → TypeBlock → Option (List (Option TypeBlock))
  | [], _, _, _ => none
  | none :: rest, target, idx, blk =>
      match fillSlotInSlots rest target idx blk with
      | some rest2 => some (none :: rest2)
      | none => none
  | some child :: rest, target, idx, blk =>
      match TypeBlock.fillSlot child target idx blk with
      | some child2 => some (some child2 :: rest)
      | none =>
          match fillSlotInSlots rest target idx blk with
          | some rest2 => some (some child :: rest2)
          | none => none
end

/-- Modelled from the spec: `crate::BlockCanvas`, holding at most a root
block; the excerpt uses `BlockCanvas::new`, `with_root`, `root_block`,
`set_root_block` and `fill_slot` (visual_editor.rs:94-98, 145, 196-204). -/
structure BlockCanvas where
  root : Option TypeBlock
deriving Repr

def BlockCanvas.new : BlockCanvas := ⟨none⟩

def BlockCanvas.with_root (b : TypeBlock) : BlockCanvas := ⟨some b⟩

def BlockCanvas.root_block (c : BlockCanvas) : Option TypeBlock := c.root

def BlockCanvas.set_root_block (_c : BlockCanvas) (r : Option TypeBlock) : BlockCanvas := ⟨r⟩

/-- Modelled from the spec: `BlockCanvas::fill_slot(parent_id, idx, block) -> bool`
(mutating in Rust); embedded as returning the success flag with the
updated canvas, leaving the canvas unchanged on failure. -/
def BlockCanvas.fill_slot (c : BlockCanvas) (parentId : BlockId) (slotIdx : Nat)
    (block : TypeBlock) : Bool × BlockCanvas :=
  match c.root with
  | none => (false, c)
  | some r =>
      match r.fillSlot parentId slotIdx block with
      | some r2 => (true, ⟨some r2⟩)
      | none => (false, c)

/-- `ui_types_common::TypeKind` (external crate); the excerpt only ever
uses `TypeKind::Alias` (visual_editor.rs:149). -/
inductive TypeKind where
  | Alias
deriving Repr, DecidableEq

/-- Minimal model of `serde_json::Value`; the excerpt only ever builds
`Value::Object(Map::new())` for the `meta` field (visual_editor.rs:158). -/
inductive JsonValue where
  | object (fields : List (String × JsonValue))
  | str (s : String)
deriving Repr

/-- `ui_types_common::AliasAsset` (external crate), with exactly the
fields the excerpt reads (visual_editor.rs:66-70) and writes
(visual_editor.rs:147-159). -/
structure AliasAsset where
  schema_version : Nat
  type_kind : TypeKind
  name : String
  display_name : String
  description : Option String
  ast : TypeAstNode
  meta : JsonValue

/-- A `ShowTypePickerRequest` event (visual_editor.rs:17-20), identified
with its `target_slot` payload. -/
def PickerRequest : Type := Option (BlockId × Nat)

/-- The state of `VisualAliasEditor` (visual_editor.rs:23-57). GPU-side
handles (`preview_input`, `horizontal_resizable_state`, `focus_handle`)
are embedded by their observable content: `preview_value` is the text the
code preview input holds. The `Arc<Mutex<...>>` cell
`pending_slot_selection` is embedded as its contents (the excerpt only
ever stores into it and `take`s it; lock poisoning is ignored by the
code's `if let Ok(..)` guards). -/
structure EditorState where
  file_path : Option String
  name : String
  display_name : String
  description : String
  canvas : BlockCanvas
  preview_value : String
  preview_needs_update : Bool
  error_message : Option String
  show_preview : Bool
  selected_slot : Option (BlockId × Nat)
  pending_block : Option TypeBlock
  pending_slot_selection : Option (BlockId × Nat)

/-- The `AliasAsset` literal that `VisualAliasEditor::save` builds
(visual_editor.rs:147-159). -/
def saveAsset (st : EditorState) (ast : TypeAstNode) : AliasAsset :=
  { schema_version := 1
    type_kind := TypeKind.Alias
    name := st.name
    display_name := st.display_name
    description := if st.description.isEmpty then none else some st.description
    ast := ast
    meta := JsonValue.object [] }

/-- Result of a `save` call: the new editor state, the list of
`std::fs::write(path, contents)` calls issued, and whether a write
succeeded. -/
structure SaveResult where
  state : EditorState
  writes : List (String × String)
  ok : Bool

/-- `VisualAliasEditor::save` (visual_editor.rs:143-183). External
effects are oracle parameters: `ser` is `serde_json::to_string_pretty`
(returning the pretty JSON or an error message) and `wr` is
`std::fs::write` (returning `some errMsg` on failure, `none` on
success). -/
def save (st : EditorState) (ser : AliasAsset → Except String String)
    (wr : String → String → Option String) : SaveResult :=
  match st.file_path with
  | none => ⟨st, [], false⟩
  | some path =>
      match st.canvas.root_block with
      | none => ⟨{ st with error_message := some "Cannot save empty type" }, [], false⟩
      | some root =>
          match root.toAst with
          | none =>
              ⟨{ st with
                  error_message :=
                    some "Type has empty slots - fill all slots before saving" },
                [], false⟩
          | some ast =>
              match ser (saveAsset st ast) with
              | .ok json =>
                  match wr path json with
                  | some e =>
                      ⟨{ st with error_message := some ("Failed to save: " ++ e) },
                        [(path, json)], false⟩
                  | none =>
                      ⟨{ st with error_message := none }, [(path, json)], true⟩
              | .error e =>
                  ⟨{ st with error_message := some ("Failed to serialize: " ++ e) }, [], false⟩

/-- `VisualAliasEditor::add_block_to_canvas` (visual_editor.rs:195-218). -/
def addBlockToCanvas (st : EditorState) (block : TypeBlock) : EditorState :=
  let st1 :=
    match st.canvas.root_block with
    | none =>
        { st with canvas := st.canvas.set_root_block (some block)
                  error_message := none
                  pending_block := none
                  selected_slot := none }
    | some _ =>
        match st.selected_slot with
        | some (parentId, slotIdx) =>
            let r := st.canvas.fill_slot parentId slotIdx block
            if r.1 then
              { st with canvas := r.2
                        error_message := none
                        selected_slot := none
                        pending_block := none }
            else
              { st with canvas := r.2
                        error_message := some "Failed to fill slot" }
        | none =>
            { st with pending_block := some block
                      error_message := some "Click on an empty slot to place this type" }
  { st1 with preview_needs_update := true }

/-- `VisualAliasEditor::select_slot` (visual_editor.rs:221-233); returns
the new state and the `ShowTypePickerRequest` events emitted. -/
def selectSlot (st : EditorState) (parentId : BlockId) (slotIdx : Nat) :
    EditorState × List PickerRequest :=
  let st1 := { st with selected_slot := some (parentId, slotIdx) }
  match st1.pending_block with
  | some block => (addBlockToCanvas { st1 with pending_block := none } block, [])
  | none => (st1, [some (parentId, slotIdx)])

/-- `VisualAliasEditor::toggle_palette` (visual_editor.rs:185-190). -/
def togglePalette (st : EditorState) : EditorState × List PickerRequest :=
  (st, [st.selected_slot])

/-- `VisualAliasEditor::generate_preview_code` (visual_editor.rs:274-286);
the Rust string literal uses `\`-continuations, which strip the following
indentation. -/
def generatePreviewCode (st : EditorState) (ast : TypeAstNode) : String :=
  "// Auto-generated Rust type alias\npub type " ++ st.display_name ++ " = " ++
    astToRustString ast ++ ";\n\n// Usage example:\n// let value: " ++
    st.display_name ++ " = ...;"

/-- `VisualAliasEditor::update_preview` (visual_editor.rs:256-270). -/
def updatePreview (st : EditorState) : EditorState :=
  let code :=
    match st.canvas.root_block with
    | some root =>
        match root.toAst with
        | some ast => generatePreviewCode st ast
        | none => "// Fill all slots to see generated code"
    | none => "// Click to add a type or use the Add Type button"
  { st with preview_value := code }

/-- `VisualAliasEditor::new_with_file` (visual_editor.rs:60-137).
External effects are oracle parameters: `readRes` is the outcome of
`std::fs::read_to_string(&file_path)` (`some content` on success, `none`
on any read error), `parse` is `serde_json::from_str::<AliasAsset>`, and
`fromAst` is the external `TypeBlock::from_ast`. -/
def newWithFile (path : String) (readRes : Option String)
    (parse : String → Except String AliasAsset)
    (fromAst : TypeAstNode → TypeBlock) : EditorState :=
  let loaded : String × String × String × Option TypeBlock × Option String :=
    match readRes with
    | some jsonContent =>
        match parse jsonContent with
        | .ok asset =>
            (asset.name, asset.display_name, asset.description.getD "",
              some (fromAst asset.ast), none)
        | .error e =>
            ("", "New Alias", "", none, some ("Failed to parse: " ++ e))
    | none =>
        ("", "New Alias", "", none, none)
  let (name, display_name, description, rootBlock, error_message) := loaded
  let canvas :=
    match rootBlock with
    | some block => BlockCanvas.with_root block
    | none => BlockCanvas.new
  let editor : EditorState :=
    { file_path := some path
      name := name
      display_name := display_name
      description := description
      canvas := canvas
      preview_value := ""
      preview_needs_update := true
      error_message := error_message
      show_preview := true
      selected_slot := none
      pending_block := none
      pending_slot_selection := none }
  { updatePreview editor with preview_needs_update := false }

/-- `VisualAliasEditor::add_type_from_picker` (visual_editor.rs:236-253);
`block` is `type_item.to_block()` — the block built from the picked item,
whose construction (fresh-id generation included) is external. -/
def addTypeFromPicker (st : EditorState) (block : TypeBlock)
    (targetSlot : Option (BlockId × Nat)) : EditorState :=
  let st1 :=
    match targetSlot with
    | some (parentId, slotIdx) =>
        let r := st.canvas.fill_slot parentId slotIdx block
        if r.1 then
          { st with canvas := r.2
                    error_message := none
                    selected_slot := none }
        else
          { st with canvas := r.2
                    error_message := some "Failed to fill slot" }
    | none => addBlockToCanvas st block
  { st1 with preview_needs_update := true }

/-- The slot click handler built in `render` (visual_editor.rs:462-467):
stores the clicked `(block_id, slot_idx)` into the shared
`pending_slot_selection` cell. -/
def slotHandler (st : EditorState) (blockId : BlockId) (slotIdx : Nat) : EditorState :=
  { st with pending_slot_selection := some (blockId, slotIdx) }

/-- The empty-canvas click handler built in `render`
(visual_editor.rs:470-477): stores the sentinel `(BlockId(""), 0)` into
the shared `pending_slot_selection` cell. -/
def emptyHandler (st : EditorState) : EditorState :=
  { st with pending_slot_selection := some (⟨""⟩, 0) }

/-- The state logic at the top of `VisualAliasEditor::render`
(visual_editor.rs:322-346): refresh the preview if flagged, then `take`
the pending slot selection and dispatch it (empty `BlockId` is the
sentinel for a root-picker request; anything else goes to
`select_slot`). Returns the emitted `ShowTypePickerRequest`s.
`refreshPreviewIfNeeded` is the preview refresh of
visual_editor.rs:324-327. -/
def refreshPreviewIfNeeded (st : EditorState) : EditorState :=
  if st.preview_needs_update then
    { updatePreview st with preview_needs_update := false }
  else st

/-- The pending-selection dispatch of `render` (visual_editor.rs:329-346),
run after the preview refresh. -/
def renderStep (st : EditorState) : EditorState × List PickerRequest :=
  let st1 := refreshPreviewIfNeeded st
  let pending := st1.pending_slot_selection
  let st2 := { st1 with pending_slot_selection := none }
  match pending with
  | none => (st2, [])
  | some (blockId, slotIdx) =>
      if blockId.raw.isEmpty then (st2, [(none : PickerRequest)])
      else selectSlot st2 blockId slotIdx

/-- `TypeItem` (type_palette.rs:5-9): a selectable entry of the type
library palette. -/
inductive TypeItem where
  | Primitive (name : String)
  | Constructor (name : String) (params_count : Nat) (description : String)
deriving Repr, DecidableEq

/-- `TypeItem::to_block` (type_palette.rs:126-133); `freshId` is the id
the external `TypeBlock::primitive` / `TypeBlock::constructor`
constructors assign, and a constructor block starts with `params_count`
open slots. -/
def TypeItem.to_block (item : TypeItem) (freshId : BlockId) : TypeBlock :=
  match item with
  | .Primitive name => .primitiveBlock freshId name
  | .Constructor name params_count _ =>
      .constructorBlock freshId name (List.replicate params_count none)

/-- One entry of `pulsar_std::get_all_type_constructors()` (external
crate), with the fields the palette reads (type_palette.rs:66-74). -/
structure TypeConstructorInfo where
  name : String
  params_count : Nat
  description : String
  category : String

/-- The `TypeItem::Constructor` built from a registry entry
(type_palette.rs:70-74). -/
def ctorItem (c : TypeConstructorInfo) : TypeItem :=
  .Constructor c.name c.params_count c.description

/-- The distinct constructor-category names in ascending order. The Rust
code groups constructors into a `HashMap` keyed by category and then
sorts the `(key, bucket)` pairs with `sort_by_key(|(name, _)| *name)`
(type_palette.rs:64-79); since the keys are distinct, the hash order is
immaterial after the sort, so this is the sorted deduplicated key list.
Rust compares `&str` bytewise, which for UTF-8 agrees with the
codepoint-lexicographic order Lean uses on `String`. -/
def sortedCategoryNames (ctors : List TypeConstructorInfo) : List String :=
  List.insertionSort (· ≤ ·) (ctors.map (·.category)).dedup

/-- `TypeLibraryPalette` (type_palette.rs:42-46). -/
structure TypeLibraryPalette where
  categories : List (String × List TypeItem)
  selected_item : Option TypeItem
  target_slot : Option (BlockId × Nat)

/-- `TypeLibraryPalette::new` (type_palette.rs:48-90). The external data
sources are parameters: `primitives` is `ui_types_common::PRIMITIVES`
and `ctors` is `pulsar_std::get_all_type_constructors()`. Each
category's bucket holds its constructors in registry order (the
`HashMap` buckets are filled by `push` while iterating the registry),
which is the order of a filter over the registry. -/
def TypeLibraryPalette.new (primitives : List String)
    (ctors : List TypeConstructorInfo)
    (targetSlot : Option (BlockId × Nat)) : TypeLibraryPalette :=
  let prims := primitives.map TypeItem.Primitive
  let rest :=
    (sortedCategoryNames ctors).map fun k =>
      (k, (ctors.filter (fun c => c.category == k)).map ctorItem)
  { categories := ("Primitives", prims) :: rest
    selected_item := none
    target_slot := targetSlot }

/-- `TypeLibraryPalette::take_selected_item` (type_palette.rs:92-94):
`Option::take`, embedded as the taken value plus the updated palette. -/
def TypeLibraryPalette.take_selected_item (p : TypeLibraryPalette) :
    Option TypeItem × TypeLibraryPalette :=
  (p.selected_item, { p with selected_item := none })

/-- `TypeLibraryPalette::target_slot` accessor (type_palette.rs:96-98). -/
def TypeLibraryPalette.target_slot_fn (p : TypeLibraryPalette) :
    Option (BlockId × Nat) :=
  p.target_slot

/-- `PaletteDelegate::categories` for `TypeLibraryPalette`
(type_palette.rs:108-110): clones the stored category list. -/
def TypeLibraryPalette.categories_fn (p : TypeLibraryPalette) :
    List (String × List TypeItem) :=
  p.categories

/-- `PaletteDelegate::confirm` for `TypeLibraryPalette`
(type_palette.rs:112-114). -/
def TypeLibraryPalette.confirm (p : TypeLibraryPalette) (item : TypeItem) :
    TypeLibraryPalette :=
  { p with selected_item := some item }

theorem updatePreview_error_message (st : EditorState) :
    (updatePreview st).error_message = st.error_message := rfl

theorem updatePreview_canvas (st : EditorState) :
    (updatePreview st).canvas = st.canvas := rfl

theorem updatePreview_pending_cell (st : EditorState) :
    (updatePreview st).pending_slot_selection = st.pending_slot_selection := rfl

theorem refreshPreviewIfNeeded_error_message (st : EditorState) :
    (refreshPreviewIfNeeded st).error_message = st.error_message := by
  unfold refreshPreviewIfNeeded
  split <;> rfl

theorem refreshPreviewIfNeeded_pending_cell (st : EditorState) :
    (refreshPreviewIfNeeded st).pending_slot_selection = st.pending_slot_selection := by
  unfold refreshPreviewIfNeeded
  split <;> rfl

theorem addBlockToCanvas_pending_cell (st : EditorState) (block : TypeBlock) :
    (addBlockToCanvas st block).pending_slot_selection = st.pending_slot_selection := by
  unfold addBlockToCanvas
  dsimp only
  split
  · rfl
  · split
    · split <;> rfl
    · rfl

theorem selectSlot_pending_cell (st : EditorState) (parentId : BlockId) (slotIdx : Nat) :
    (selectSlot st parentId slotIdx).1.pending_slot_selection = st.pending_slot_selection := by
  unfold selectSlot
  dsimp only
  split
  · exact addBlockToCanvas_pending_cell _ _
  · rfl

/-- Claim C1: `ast_to_rust_string` is the direct recursive rendering of
the `TypeAstNode` tree — a `Primitive` renders as its name, a `Path` as
its path, an `AliasRef` as its alias, a `Constructor` as
`name<s1, ..., sk>`, a `Tuple` as `(s1, ..., sk)` and an `FnPointer` as
`fn(s1, ..., sk) -> sr`, where the si/sr are the recursive renderings of
the children joined by `", "`. -/
theorem claim_c1_ast_to_rust_string (name path aliasName : String)
    (params elements : List TypeAstNode) (returnType : TypeAstNode) :
    astToRustString (.Primitive name) = name ∧
    astToRustString (.Path path) = path ∧
    astToRustString (.AliasRef aliasName) = aliasName ∧
    astToRustString (.Constructor name params) =
      name ++ "<" ++ String.intercalate ", " (params.map astToRustString) ++ ">" ∧
    astToRustString (.Tuple elements) =
      "(" ++ String.intercalate ", " (elements.map astToRustString) ++ ")" ∧
    astToRustString (.FnPointer params returnType) =
      "fn(" ++ String.intercalate ", " (params.map astToRustString) ++ ") -> " ++
        astToRustString returnType := by
  refine ⟨rfl, rfl, rfl, ?_, ?_, ?_⟩ <;>
    simp [astToRustString, astStrings_eq_map]

/-- Claim C10: `confirm` then `take_selected_item` hand the confirmed
item over exactly once — the first take returns it, a second consecutive
take returns `None`, and neither call changes the palette's categories
or its target slot. -/
theorem claim_c10_palette_handoff (p : TypeLibraryPalette) (item : TypeItem) :
    ((p.confirm item).take_selected_item).1 = some item ∧
    ((((p.confirm item).take_selected_item).2).take_selected_item).1 = none ∧
    (p.confirm item).categories_fn = p.categories_fn ∧
    (p.confirm item).target_slot_fn = p.target_slot_fn ∧
    (((p.confirm item).take_selected_item).2).categories_fn = p.categories_fn ∧
    (((p.confirm item).take_selected_item).2).target_slot_fn = p.target_slot_fn :=
  ⟨rfl, rfl, rfl, rfl, rfl, rfl⟩

theorem mem_sortedCategoryNames (ctors : List TypeConstructorInfo) (k : String) :
    k ∈ sortedCategoryNames ctors ↔ ∃ c ∈ ctors, c.category = k := by
  unfold sortedCategoryNames
  rw [(List.perm_insertionSort _ _).mem_iff, List.mem_dedup, List.mem_map]

/-- Claim C9: every palette built by `TypeLibraryPalette::new` lists a
"Primitives" category first, holding one `Primitive` item per registry
primitive in order, followed by the constructor categories in strictly
ascending name order, each holding exactly the registered constructors of
that category as `Constructor` items: every entry's bucket is the
registry filtered to that category, every registered constructor's
category occurs among the entries (and its item inside that entry's
bucket), and no entry names a category without a registered
constructor. -/
theorem claim_c9_palette_categories (primitives : List String)
    (ctors : List TypeConstructorInfo) (targetSlot : Option (BlockId × Nat)) :
    ∃ rest,
      (TypeLibraryPalette.new primitives ctors targetSlot).categories_fn =
        ("Primitives", primitives.map TypeItem.Primitive) :: rest ∧
      (rest.map Prod.fst).Pairwise (· < ·) ∧
      (∀ entry ∈ rest,
        entry.2 = (ctors.filter (fun c => c.category == entry.1)).map ctorItem) ∧
      (∀ c ∈ ctors, c.category ∈ rest.map Prod.fst) ∧
      (∀ c ∈ ctors, ∃ entry ∈ rest, entry.1 = c.category ∧ ctorItem c ∈ entry.2) ∧
      (∀ k ∈ rest.map Prod.fst, ∃ c ∈ ctors, c.category = k) := by
  have hmapfst : ∀ l : List String,
      (l.map fun k =>
        ((k : String), (ctors.filter (fun c => c.category == k)).map ctorItem)).map
          Prod.fst = l := by
    intro l
    rw [List.map_map]
    have hid : (Prod.fst ∘ fun k =>
        ((k : String), (ctors.filter (fun c => c.category == k)).map ctorItem)) = id := rfl
    rw [hid, List.map_id]
  refine ⟨_, rfl, ?_, ?_, ?_, ?_, ?_⟩
  · rw [hmapfst]
    have hs : (sortedCategoryNames ctors).Sorted (· ≤ ·) :=
      List.sorted_insertionSort _ _
    have hn : (sortedCategoryNames ctors).Nodup :=
      ((List.perm_insertionSort _ _).nodup_iff).mpr (List.nodup_dedup _)
    exact hs.lt_of_le hn
  · intro entry hmem
    rcases List.mem_map.mp hmem with ⟨k, _, rfl⟩
    rfl
  · intro c hc
    rw [hmapfst]
    exact (mem_sortedCategoryNames ctors c.category).mpr ⟨c, hc, rfl⟩
  · intro c hc
    refine ⟨(c.category, (ctors.filter (fun d => d.category == c.category)).map ctorItem),
      List.mem_map_of_mem _
        ((mem_sortedCategoryNames ctors c.category).mpr ⟨c, hc, rfl⟩), rfl, ?_⟩
    exact List.mem_map_of_mem ctorItem (List.mem_filter.mpr ⟨hc, by simp⟩)
  · intro k hk
    rw [hmapfst] at hk
    exact (mem_sortedCategoryNames ctors k).mp hk

/-- A closed root block used by concrete witnesses. -/
def exampleRoot : TypeBlock := .primitiveBlock ⟨"root"⟩ "u64"

/-- A root block with one still-open slot, used by concrete witnesses. -/
def exampleOpenRoot : TypeBlock := .constructorBlock ⟨"root"⟩ "Vec" [none]

/-- A baseline editor state with an empty canvas, used by concrete
witnesses. -/
def baseState : EditorState :=
  { file_path := some "alias.json"
    name := "my_alias"
    display_name := "MyAlias"
    description := ""
    canvas := BlockCanvas.new
    preview_value := ""
    preview_needs_update := false
    error_message := none
    show_preview := true
    selected_slot := none
    pending_block := none
    pending_slot_selection := none }

/-- `baseState` with `exampleRoot` on the canvas. -/
def rootedState : EditorState :=
  { baseState with canvas := BlockCanvas.with_root exampleRoot }

/-- `baseState` with an open-slot root and that slot selected. -/
def slotSelectedState : EditorState :=
  { baseState with
      canvas := BlockCanvas.with_root exampleOpenRoot
      selected_slot := some (⟨"root"⟩, 0) }

/-- `baseState` with no backing file. -/
def noFileState : EditorState :=
  { baseState with file_path := none }

/-- A serialization oracle that always succeeds with a fixed payload. -/
def exampleSer : AliasAsset → Except String String := fun _ => .ok "JSONDOC"

/-- A filesystem-write oracle that always succeeds. -/
def exampleWr : String → String → Option String := fun _ _ => none

/-- Claim C6: the live code preview text is determined by the canvas
state — no root gives the add-a-type hint, a root with open slots gives
the fill-all-slots hint, and a complete root gives the generated
`pub type D = T;` template with the display name and the rendered AST. -/
theorem claim_c6_preview_text (st : EditorState) :
    (st.canvas.root_block = none →
      (updatePreview st).preview_value =
        "// Click to add a type or use the Add Type button") ∧
    (∀ root, st.canvas.root_block = some root → root.toAst = none →
      (updatePreview st).preview_value = "// Fill all slots to see generated code") ∧
    (∀ root ast, st.canvas.root_block = some root → root.toAst = some ast →
      (updatePreview st).preview_value =
        "// Auto-generated Rust type alias\npub type " ++ st.display_name ++ " = " ++
          astToRustString ast ++ ";\n\n// Usage example:\n// let value: " ++
          st.display_name ++ " = ...;") := by
  refine ⟨?_, ?_, ?_⟩
  · intro h
    simp [updatePreview, h]
  · intro root h1 h2
    simp [updatePreview, h1, h2]
  · intro root ast h1 h2
    simp [updatePreview, h1, h2, generatePreviewCode]

theorem claim_c6_witness :
    (updatePreview baseState).preview_value =
      "// Click to add a type or use the Add Type button" :=
  (claim_c6_preview_text baseState).1 rfl

/-- Claim C7: `add_block_to_canvas` places the block as root when the
canvas is empty (clearing pending block, selected slot and error);
otherwise with a selected slot it attempts `fill_slot`, clearing
selection, pending block and error on success and reporting
"Failed to fill slot" on failure; otherwise it stores the block as
pending with a prompt; in every case it flags the preview for update. -/
theorem claim_c7_add_block (st : EditorState) (block : TypeBlock) :
    (addBlockToCanvas st block).preview_needs_update = true ∧
    (st.canvas.root_block = none →
      (addBlockToCanvas st block).canvas.root_block = some block ∧
      (addBlockToCanvas st block).pending_block = none ∧
      (addBlockToCanvas st block).selected_slot = none ∧
      (addBlockToCanvas st block).error_message = none) ∧
    (∀ root parentId slotIdx, st.canvas.root_block = some root →
      st.selected_slot = some (parentId, slotIdx) →
      (((st.canvas.fill_slot parentId slotIdx block).1 = true →
          (addBlockToCanvas st block).canvas =
            (st.canvas.fill_slot parentId slotIdx block).2 ∧
          (addBlockToCanvas st block).selected_slot = none ∧
          (addBlockToCanvas st block).pending_block = none ∧
          (addBlockToCanvas st block).error_message = none) ∧
        ((st.canvas.fill_slot parentId slotIdx block).1 = false →
          (addBlockToCanvas st block).error_message = some "Failed to fill slot"))) ∧
    (∀ root, st.canvas.root_block = some root → st.selected_slot = none →
      (addBlockToCanvas st block).pending_block = some block ∧
      (addBlockToCanvas st block).error_message =
        some "Click on an empty slot to place this type") := by
  refine ⟨rfl, ?_, ?_, ?_⟩
  · intro h
    simp only [addBlockToCanvas, h]
    simp [BlockCanvas.set_root_block, BlockCanvas.root_block]
  · intro root parentId slotIdx h1 h2
    constructor
    · intro hfill
      simp only [addBlockToCanvas, h1, h2]
      simp [hfill]
    · intro hfill
      simp only [addBlockToCanvas, h1, h2]
      simp [hfill]
  · intro root h1 h2
    simp only [addBlockToCanvas, h1, h2]
    simp

theorem claim_c7_witness :
    (addBlockToCanvas baseState exampleRoot).canvas.root_block = some exampleRoot ∧
    (addBlockToCanvas baseState exampleRoot).error_message = none :=
  ⟨((claim_c7_add_block baseState exampleRoot).2.1 rfl).1,
   ((claim_c7_add_block baseState exampleRoot).2.1 rfl).2.2.2⟩

/-- Claim C8: whenever `save` does not successfully write, the editor's
name, display name, description, canvas, file path, selected slot and
pending block are unchanged (at most the error message changes), and
with no file path set nothing changes at all. -/
theorem claim_c8_save_failure_preserves (st : EditorState)
    (ser : AliasAsset → Except String String)
    (wr : String → String → Option String) :
    ((save st ser wr).ok = false →
      (save st ser wr).state.name = st.name ∧
      (save st ser wr).state.display_name = st.display_name ∧
      (save st ser wr).state.description = st.description ∧
      (save st ser wr).state.canvas = st.canvas ∧
      (save st ser wr).state.file_path = st.file_path ∧
      (save st ser wr).state.selected_slot = st.selected_slot ∧
      (save st ser wr).state.pending_block = st.pending_block) ∧
    (st.file_path = none →
      (save st ser wr).state = st ∧ (save st ser wr).writes = []) := by
  constructor
  · intro _
    unfold save
    repeat' split
    all_goals exact ⟨rfl, rfl, rfl, rfl, rfl, rfl, rfl⟩
  · intro h
    constructor <;> simp [save, h]

theorem claim_c8_witness :
    (save noFileState exampleSer exampleWr).state = noFileState ∧
    (save noFileState exampleSer exampleWr).state.canvas = noFileState.canvas :=
  ⟨((claim_c8_save_failure_preserves noFileState exampleSer exampleWr).2 rfl).1,
   ((claim_c8_save_failure_preserves noFileState exampleSer exampleWr).1 rfl).2.2.2.1⟩

/-- Claim C3: with a file path set, `save` rejects an empty canvas
("Cannot save empty type") and an incomplete root
("Type has empty slots - fill all slots before saving") without writing;
otherwise it serializes an `AliasAsset` with schema version 1, kind
`Alias`, the editor's name and display name, a description that is `None`
exactly when the description string is empty, and the AST; it writes the
serialized JSON to the file path, clears the error message on success,
and reports "Failed to save: ..." on a write error or
"Failed to serialize: ..." on a serialization error. -/
theorem claim_c3_save_behavior (st : EditorState)
    (ser : AliasAsset → Except String String)
    (wr : String → String → Option String) (path : String)
    (hpath : st.file_path = some path) :
    (st.canvas.root_block = none →
      (save st ser wr).state.error_message = some "Cannot save empty type" ∧
      (save st ser wr).writes = []) ∧
    (∀ root, st.canvas.root_block = some root → root.toAst = none →
      (save st ser wr).state.error_message =
        some "Type has empty slots - fill all slots before saving" ∧
      (save st ser wr).writes = []) ∧
    (∀ root ast, st.canvas.root_block = some root → root.toAst = some ast →
      ((saveAsset st ast).schema_version = 1 ∧
       (saveAsset st ast).type_kind = TypeKind.Alias ∧
       (saveAsset st ast).name = st.name ∧
       (saveAsset st ast).display_name = st.display_name ∧
       ((saveAsset st ast).description = none ↔ st.description = "") ∧
       (saveAsset st ast).ast = ast) ∧
      (∀ e, ser (saveAsset st ast) = .error e →
        (save st ser wr).state.error_message = some ("Failed to serialize: " ++ e) ∧
        (save st ser wr).writes = []) ∧
      (∀ json, ser (saveAsset st ast) = .ok json →
        (save st ser wr).writes = [(path, json)] ∧
        (wr path json = none → (save st ser wr).state.error_message = none) ∧
        (∀ e, wr path json = some e →
          (save st ser wr).state.error_message = some ("Failed to save: " ++ e)))) := by
  refine ⟨?_, ?_, ?_⟩
  · intro h
    simp [save, hpath, h]
  · intro root h1 h2
    simp [save, hpath, h1, h2]
  · intro root ast h1 h2
    refine ⟨⟨rfl, rfl, rfl, rfl, ?_, rfl⟩, ?_, ?_⟩
    · simp only [saveAsset]
      constructor
      · intro hd
        by_cases he : st.description.isEmpty
        · exact (String.isEmpty_iff st.description).mp he
        · simp [he] at hd
      · intro hd
        simp [(String.isEmpty_iff st.description).mpr hd]
    · intro e hser
      simp [save, hpath, h1, h2, hser]
    · intro json hser
      refine ⟨?_, ?_, ?_⟩
      · simp only [save, hpath, h1, h2, hser]
        cases hw : wr path json <;> simp [hw]
      · intro hw
        simp only [save, hpath, h1, h2, hser, hw]
      · intro e hw
        simp only [save, hpath, h1, h2, hser, hw]

theorem claim_c3_witness :
    (save baseState exampleSer exampleWr).state.error_message =
      some "Cannot save empty type" ∧
    (save baseState exampleSer exampleWr).writes = [] :=
  (claim_c3_save_behavior baseState exampleSer exampleWr "alias.json" rfl).1 rfl

/-- Claim C4: `new_with_file` takes the editor's name, display name,
description (defaulting to empty) and canvas root from a successfully
read and parsed `AliasAsset` with no error message; on a read success
but parse failure it reports "Failed to parse: ...", defaults the
display name to "New Alias", leaves name and description empty and the
canvas rootless; on a read failure it initializes the same empty way but
with no error message (treated as a new file). -/
theorem claim_c4_new_with_file (path : String) (readRes : Option String)
    (parse : String → Except String AliasAsset)
    (fromAst : TypeAstNode → TypeBlock) :
    (∀ jsonContent asset, readRes = some jsonContent →
      parse jsonContent = .ok asset →
      (newWithFile path readRes parse fromAst).name = asset.name ∧
      (newWithFile path readRes parse fromAst).display_name = asset.display_name ∧
      (newWithFile path readRes parse fromAst).description = asset.description.getD "" ∧
      (newWithFile path readRes parse fromAst).canvas.root_block =
        some (fromAst asset.ast) ∧
      (newWithFile path readRes parse fromAst).error_message = none) ∧
    (∀ jsonContent e, readRes = some jsonContent →
      parse jsonContent = .error e →
      (newWithFile path readRes parse fromAst).error_message =
        some ("Failed to parse: " ++ e) ∧
      (newWithFile path readRes parse fromAst).display_name = "New Alias" ∧
      (newWithFile path readRes parse fromAst).name = "" ∧
      (newWithFile path readRes parse fromAst).description = "" ∧
      (newWithFile path readRes parse fromAst).canvas.root_block = none) ∧
    (readRes = none →
      (newWithFile path readRes parse fromAst).name = "" ∧
      (newWithFile path readRes parse fromAst).display_name = "New Alias" ∧
      (newWithFile path readRes parse fromAst).description = "" ∧
      (newWithFile path readRes parse fromAst).canvas.root_block = none ∧
      (newWithFile path readRes parse fromAst).error_message = none) := by
  refine ⟨?_, ?_, ?_⟩
  · intro jsonContent asset hr hp
    simp only [newWithFile, hr, hp]
    refine ⟨?_, ?_, ?_, ?_, ?_⟩ <;> trivial
  · intro jsonContent e hr hp
    simp only [newWithFile, hr, hp]
    refine ⟨?_, ?_, ?_, ?_, ?_⟩ <;> trivial
  · intro hr
    simp only [newWithFile, hr]
    refine ⟨?_, ?_, ?_, ?_, ?_⟩ <;> trivial

/-- A parse oracle that always fails, used by concrete witnesses. -/
def exampleParse : String → Except String AliasAsset := fun _ => .error "eof"

/-- A `TypeBlock::from_ast` stand-in used by concrete witnesses. -/
def exampleFromAst : TypeAstNode → TypeBlock := fun _ => exampleRoot

theorem claim_c4_witness :
    (newWithFile "alias.json" none exampleParse exampleFromAst).display_name =
      "New Alias" ∧
    (newWithFile "alias.json" none exampleParse exampleFromAst).error_message = none :=
  ⟨((claim_c4_new_with_file "alias.json" none exampleParse exampleFromAst).2.2 rfl).2.1,
   ((claim_c4_new_with_file "alias.json" none exampleParse exampleFromAst).2.2 rfl).2.2.2.2⟩

/-- Claim C5: the pending-click cell is a single-shot handoff — the slot
click handler stores `(block_id, slot_idx)`, the empty-canvas handler
stores the `(BlockId(""), 0)` sentinel, the next render takes the cell
(leaving it `None`), a taken sentinel with empty `BlockId` emits a
`ShowTypePickerRequest` with no target slot, and any other taken value is
passed to `select_slot`. -/
theorem claim_c5_pending_click_handoff (st : EditorState) (blockId : BlockId)
    (slotIdx : Nat) :
    (slotHandler st blockId slotIdx).pending_slot_selection = some (blockId, slotIdx) ∧
    (emptyHandler st).pending_slot_selection = some (⟨""⟩, 0) ∧
    (renderStep st).1.pending_slot_selection = none ∧
    (st.pending_slot_selection = some (blockId, slotIdx) →
      (blockId.raw = "" →
        renderStep st =
          ({ refreshPreviewIfNeeded st with pending_slot_selection := none },
            [(none : PickerRequest)])) ∧
      (blockId.raw ≠ "" →
        renderStep st =
          selectSlot { refreshPreviewIfNeeded st with pending_slot_selection := none }
            blockId slotIdx)) ∧
    (st.pending_slot_selection = none → (renderStep st).2 = []) := by
  refine ⟨rfl, rfl, ?_, ?_, ?_⟩
  · unfold renderStep
    dsimp only
    split
    · rfl
    · split
      · rfl
      · rw [selectSlot_pending_cell]
  · intro hcell
    constructor
    · intro hraw
      simp only [renderStep, refreshPreviewIfNeeded_pending_cell, hcell, hraw]
      simp
      intro hfalse
      exact absurd hfalse (by decide)
    · intro hraw
      simp only [renderStep, refreshPreviewIfNeeded_pending_cell, hcell]
      simp [String.isEmpty_iff, hraw]
  · intro hcell
    simp only [renderStep, refreshPreviewIfNeeded_pending_cell, hcell]

/-- `baseState` with a pending click stored in the shared cell. -/
def pendingCellState : EditorState :=
  { baseState with pending_slot_selection := some (⟨"root"⟩, 0) }

theorem claim_c5_witness :
    renderStep pendingCellState =
      selectSlot { refreshPreviewIfNeeded pendingCellState with
                     pending_slot_selection := none } ⟨"root"⟩ 0 :=
  ((claim_c5_pending_click_handoff pendingCellState ⟨"root"⟩ 0).2.2.2.1 rfl).2
    (by decide)

/-- The error-message taxonomy asserted by claim C2: every displayed
message is a "Failed to parse: ...", "Failed to save: ..." or
"Failed to serialize: ..." string. -/
def claimedErrorForm (s : String) : Prop :=
  (∃ t, s = "Failed to parse: " ++ t) ∨
  (∃ t, s = "Failed to save: " ++ t) ∨
  (∃ t, s = "Failed to serialize: " ++ t)

/-- The messages the editor actually stores in `error_message`: the three
prefixed families of claim C2 plus the four fixed strings of
visual_editor.rs:176, 179, 209/245 and 214. -/
def storedErrorOk (s : String) : Prop :=
  claimedErrorForm s ∨
  s = "Cannot save empty type" ∨
  s = "Type has empty slots - fill all slots before saving" ∨
  s = "Failed to fill slot" ∨
  s = "Click on an empty slot to place this type"

theorem newWithFile_error_taxonomy (path : String) (readRes : Option String)
    (parse : String → Except String AliasAsset)
    (fromAst : TypeAstNode → TypeBlock) (s : String) :
    (newWithFile path readRes parse fromAst).error_message = some s →
    storedErrorOk s := by
  intro h
  cases readRes with
  | none => simp [newWithFile, updatePreview_error_message] at h
  | some jsonContent =>
      cases hp : parse jsonContent with
      | ok asset => simp [newWithFile, updatePreview_error_message, hp] at h
      | error e =>
          simp only [newWithFile, hp] at h
          have h2 : "Failed to parse: " ++ e = s := Option.some.inj h
          exact Or.inl (Or.inl ⟨e, h2.symm⟩)

theorem save_error_taxonomy (st : EditorState)
    (ser : AliasAsset → Except String String)
    (wr : String → String → Option String) (s : String) :
    (save st ser wr).state.error_message = some s →
    st.error_message = some s ∨ storedErrorOk s := by
  intro h
  unfold save at h
  split at h
  · exact Or.inl h
  · split at h
    · exact Or.inr (Or.inr (Or.inl (Option.some.inj h).symm))
    · split at h
      · exact Or.inr (Or.inr (Or.inr (Or.inl (Option.some.inj h).symm)))
      · split at h
        · split at h
          · next e _ =>
              exact Or.inr (Or.inl (Or.inr (Or.inl ⟨e, (Option.some.inj h).symm⟩)))
          · simp at h
        · next e _ =>
            exact Or.inr (Or.inl (Or.inr (Or.inr ⟨e, (Option.some.inj h).symm⟩)))

theorem addBlockToCanvas_error_taxonomy (st : EditorState) (block : TypeBlock)
    (s : String) :
    (addBlockToCanvas st block).error_message = some s →
    st.error_message = some s ∨ storedErrorOk s := by
  intro h
  unfold addBlockToCanvas at h
  dsimp only at h
  split at h
  · simp at h
  · split at h
    · split at h
      · simp at h
      · exact Or.inr (Or.inr (Or.inr (Or.inr (Or.inl (Option.some.inj h).symm))))
    · exact Or.inr (Or.inr (Or.inr (Or.inr (Or.inr (Option.some.inj h).symm))))

theorem selectSlot_error_taxonomy (st : EditorState) (parentId : BlockId)
    (slotIdx : Nat) (s : String) :
    (selectSlot st parentId slotIdx).1.error_message = some s →
    st.error_message = some s ∨ storedErrorOk s := by
  intro h
  unfold selectSlot at h
  dsimp only at h
  split at h
  · have h2 := addBlockToCanvas_error_taxonomy _ _ s h
    exact h2
  · exact Or.inl h

theorem addTypeFromPicker_error_taxonomy (st : EditorState) (block : TypeBlock)
    (targetSlot : Option (BlockId × Nat)) (s : String) :
    (addTypeFromPicker st block targetSlot).error_message = some s →
    st.error_message = some s ∨ storedErrorOk s := by
  intro h
  unfold addTypeFromPicker at h
  dsimp only at h
  split at h
  · split at h
    · simp at h
    · exact Or.inr (Or.inr (Or.inr (Or.inr (Or.inl (Option.some.inj h).symm))))
  · exact addBlockToCanvas_error_taxonomy _ _ _ h

theorem renderStep_error_taxonomy (st : EditorState) (s : String) :
    (renderStep st).1.error_message = some s →
    st.error_message = some s ∨ storedErrorOk s := by
  intro h
  unfold renderStep at h
  dsimp only at h
  split at h
  · have h2 : (refreshPreviewIfNeeded st).error_message = some s := h
    rw [refreshPreviewIfNeeded_error_message] at h2
    exact Or.inl h2
  · split at h
    · have h2 : (refreshPreviewIfNeeded st).error_message = some s := h
      rw [refreshPreviewIfNeeded_error_message] at h2
      exact Or.inl h2
    · rcases selectSlot_error_taxonomy _ _ _ _ h with h2 | h2
      · have h3 : (refreshPreviewIfNeeded st).error_message = some s := h2
        rw [refreshPreviewIfNeeded_error_message] at h3
        exact Or.inl h3
      · exact Or.inr h2

/-- Claim C2 (counterexample): `add_block_to_canvas` with a root present
and no slot selected stores "Click on an empty slot to place this type",
which is outside the three-form taxonomy the claim asserts. -/
theorem claim_c2_counterexample :
    (addBlockToCanvas rootedState exampleOpenRoot).error_message =
      some "Click on an empty slot to place this type" ∧
    ¬ claimedErrorForm "Click on an empty slot to place this type" := by
  constructor
  · rfl
  · unfold claimedErrorForm
    rintro (⟨t, ht⟩ | ⟨t, ht⟩ | ⟨t, ht⟩) <;>
    · have h2 := congrArg String.data ht
      rw [String.data_append] at h2
      simp at h2

/-- Claim C2 (amended): every string any excerpt operation stores in
`error_message` is either carried over unchanged from the previous state
or is one of the seven messages the code produces — the three prefixed
families "Failed to parse: ...", "Failed to save: ...",
"Failed to serialize: ..." plus the fixed strings
"Cannot save empty type",
"Type has empty slots - fill all slots before saving",
"Failed to fill slot" and "Click on an empty slot to place this type". -/
theorem claim_c2_amended_taxonomy :
    (∀ path readRes parse fromAst s,
      (newWithFile path readRes parse fromAst).error_message = some s →
      storedErrorOk s) ∧
    (∀ st ser wr s, (save st ser wr).state.error_message = some s →
      st.error_message = some s ∨ storedErrorOk s) ∧
    (∀ st block s, (addBlockToCanvas st block).error_message = some s →
      st.error_message = some s ∨ storedErrorOk s) ∧
    (∀ st parentId slotIdx s,
      (selectSlot st parentId slotIdx).1.error_message = some s →
      st.error_message = some s ∨ storedErrorOk s) ∧
    (∀ st block targetSlot s,
      (addTypeFromPicker st block targetSlot).error_message = some s →
      st.error_message = some s ∨ storedErrorOk s) ∧
    (∀ st s, (renderStep st).1.error_message = some s →
      st.error_message = some s ∨ storedErrorOk s) ∧
    (∀ st : EditorState, (togglePalette st).1.error_message = st.error_message) ∧
    (∀ (st : EditorState) (blockId : BlockId) (slotIdx : Nat),
      (slotHandler st blockId slotIdx).error_message = st.error_message) ∧
    (∀ st : EditorState, (emptyHandler st).error_message = st.error_message) :=
  ⟨newWithFile_error_taxonomy, save_error_taxonomy, addBlockToCanvas_error_taxonomy,
    selectSlot_error_taxonomy, addTypeFromPicker_error_taxonomy,
    renderStep_error_taxonomy, fun _ => rfl, fun _ _ _ => rfl, fun _ => rfl⟩

theorem claim_c2_amended_witness : storedErrorOk "Failed to parse: eof" :=
  claim_c2_amended_taxonomy.1 "alias.json" (some "junk") exampleParse exampleFromAst
    "Failed to parse: eof" (by decide)
